import Mathlib

/-!
Verification of the Statistical-Arbitrage-Trading-System core against its
specification.

The Python source (src/src/fee_calculator.py, src/src/stat_arb_engine.py,
src/config/config.py) is embedded shallowly:

* Python floats become exact rationals (ℚ).  Every concrete value checked
  below sits far from a decimal rounding boundary except the one exact tie
  37.875, where the binary double is exactly 37.875 as well, so the rational
  model and the float code round alike.
* `round(x, n)` in Python rounds half to even on the exact value; `pyRound`
  below does the same on ℚ.
* A `pandas` value that can be NaN is an `Option ℚ` (`none` = NaN).
* The Engle-Granger test and the OLS fit are external library numerics; they
  enter the model as an oracle argument (`CointStats`), so every theorem about
  `test_cointegration` holds for every possible numeric outcome.
* Fallible code (the one division that can raise `ZeroDivisionError`) returns
  `Option`.
-/

namespace StatArb

/-! ### Configuration constants (config/config.py) -/

/-- `ZerodhaFeeStructure.INTRADAY_BROKERAGE_PERCENT = 0.0003`. -/
def INTRADAY_BROKERAGE_PERCENT : ℚ := 3 / 10000

/-- `ZerodhaFeeStructure.INTRADAY_BROKERAGE_MAX = 20.0`. -/
def INTRADAY_BROKERAGE_MAX : ℚ := 20

/-- `ZerodhaFeeStructure.STT_DELIVERY_BUY = 0.001`. -/
def STT_DELIVERY_BUY : ℚ := 1 / 1000

/-- `ZerodhaFeeStructure.STT_DELIVERY_SELL = 0.001`. -/
def STT_DELIVERY_SELL : ℚ := 1 / 1000

/-- `ZerodhaFeeStructure.STT_INTRADAY_SELL = 0.00025`. -/
def STT_INTRADAY_SELL : ℚ := 25 / 100000

/-- `ZerodhaFeeStructure.NSE_TRANSACTION_CHARGES = 297.0 / 10000000`. -/
def NSE_TRANSACTION_CHARGES : ℚ := 297 / 10000000

/-- `ZerodhaFeeStructure.BSE_TRANSACTION_CHARGES = 375.0 / 10000000`. -/
def BSE_TRANSACTION_CHARGES : ℚ := 375 / 10000000

/-- `ZerodhaFeeStructure.SEBI_CHARGES = 10.0 / 10000000`. -/
def SEBI_CHARGES : ℚ := 10 / 10000000

/-- `ZerodhaFeeStructure.STAMP_DUTY_DELIVERY = 1500.0 / 10000000`. -/
def STAMP_DUTY_DELIVERY : ℚ := 1500 / 10000000

/-- `ZerodhaFeeStructure.STAMP_DUTY_INTRADAY = 300.0 / 10000000`. -/
def STAMP_DUTY_INTRADAY : ℚ := 300 / 10000000

/-- `ZerodhaFeeStructure.GST_RATE = 0.18`. -/
def GST_RATE : ℚ := 18 / 100

/-- `ZerodhaFeeStructure.DP_CHARGES = 13.5`. -/
def DP_CHARGES : ℚ := 27 / 2

/-- `TradingConfig.Z_SCORE_ENTRY = 2.0`. -/
def Z_SCORE_ENTRY : ℚ := 2

/-- `TradingConfig.Z_SCORE_EXIT = 0.5`. -/
def Z_SCORE_EXIT : ℚ := 1 / 2

/-- `TradingConfig.STOP_LOSS_MULTIPLIER = 2.5`. -/
def STOP_LOSS_MULTIPLIER : ℚ := 5 / 2

/-- `PairTradingConfig.MAX_COINTEGRATION_PVALUE = 0.05`. -/
def MAX_COINTEGRATION_PVALUE : ℚ := 1 / 20

/-! ### Python's `round` on exact rationals -/

/-- Round a rational to the nearest integer, ties to even — the semantics of
Python's built-in `round` for a value held exactly. -/
def roundHalfEvenInt (x : ℚ) : ℤ :=
  if x - ⌊x⌋ < 1 / 2 then ⌊x⌋
  else if 1 / 2 < x - ⌊x⌋ then ⌊x⌋ + 1
  else if ⌊x⌋ % 2 = 0 then ⌊x⌋ else ⌊x⌋ + 1

/-- Python's `round(x, n)` on an exactly-held value. -/
def pyRound (x : ℚ) (n : ℕ) : ℚ := (roundHalfEvenInt (x * 10 ^ n) : ℚ) / 10 ^ n

/-! ### Fee calculator (src/src/fee_calculator.py, `ZerodhaFeeCalculator`) -/

/-- The `trade_type` argument: Python strings `"delivery"` / `"intraday"`.
Every call site in the repository passes one of the two literals, which the
code dispatches on with `trade_type.lower() == "delivery"`. -/
inductive TradeType where
  | delivery
  | intraday
deriving DecidableEq

/-- The `exchange` argument: Python strings `"NSE"` / `"BSE"`, dispatched with
`exchange.upper() == "NSE"`. -/
inductive Exchange where
  | NSE
  | BSE
deriving DecidableEq

/-- `ZerodhaFeeCalculator.calculate_brokerage`. -/
def calculate_brokerage (quantity : ℕ) (price : ℚ) (trade_type : TradeType) : ℚ :=
  let turnover : ℚ := quantity * price
  match trade_type with
  | .delivery => 0
  | .intraday => min (turnover * INTRADAY_BROKERAGE_PERCENT) INTRADAY_BROKERAGE_MAX

/-- `ZerodhaFeeCalculator.calculate_stt`. -/
def calculate_stt (quantity : ℕ) (buy_price sell_price : ℚ) (trade_type : TradeType) : ℚ :=
  match trade_type with
  | .delivery =>
      (quantity : ℚ) * buy_price * STT_DELIVERY_BUY
        + (quantity : ℚ) * sell_price * STT_DELIVERY_SELL
  | .intraday => (quantity : ℚ) * sell_price * STT_INTRADAY_SELL

/-- `ZerodhaFeeCalculator.calculate_transaction_charges`. -/
def calculate_transaction_charges (quantity : ℕ) (price : ℚ) (exchange : Exchange) : ℚ :=
  let turnover : ℚ := quantity * price
  match exchange with
  | .NSE => turnover * NSE_TRANSACTION_CHARGES
  | .BSE => turnover * BSE_TRANSACTION_CHARGES

/-- `ZerodhaFeeCalculator.calculate_sebi_charges`. -/
def calculate_sebi_charges (quantity : ℕ) (price : ℚ) : ℚ :=
  (quantity : ℚ) * price * SEBI_CHARGES

/-- `ZerodhaFeeCalculator.calculate_stamp_duty`. -/
def calculate_stamp_duty (quantity : ℕ) (price : ℚ) (trade_type : TradeType) : ℚ :=
  let turnover : ℚ := quantity * price
  match trade_type with
  | .delivery => turnover * STAMP_DUTY_DELIVERY
  | .intraday => turnover * STAMP_DUTY_INTRADAY

/-- `ZerodhaFeeCalculator.calculate_gst`. -/
def calculate_gst (brokerage transaction_charges : ℚ) : ℚ :=
  (brokerage + transaction_charges) * GST_RATE

/-- The `"breakdown"` dict of `calculate_total_charges`. -/
structure FeeBreakdown where
  brokerage : ℚ
  stt : ℚ
  transaction_charges : ℚ
  sebi_charges : ℚ
  stamp_duty : ℚ
  gst : ℚ
  dp_charges : ℚ
deriving DecidableEq

/-- The `"totals"` dict of `calculate_total_charges`. -/
structure FeeTotals where
  total_charges : ℚ
  gross_profit : ℚ
  net_profit : ℚ
  net_profit_percent : ℚ
deriving DecidableEq

/-- The result dict of `calculate_total_charges` (the `"trade_details"` block
merely echoes the inputs and is omitted). -/
structure FeeResult where
  breakdown : FeeBreakdown
  totals : FeeTotals
deriving DecidableEq

/-- `ZerodhaFeeCalculator.calculate_total_charges`.  The single partial
operation in the Python body is the division by `quantity * buy_price` in
`net_profit_percent`; a zero denominator raises `ZeroDivisionError`, modelled
as `none`. -/
def calculate_total_charges (quantity : ℕ) (buy_price sell_price : ℚ)
    (trade_type : TradeType) (exchange : Exchange) (include_dp_charges : Bool) :
    Option FeeResult :=
  let brokerage_buy := calculate_brokerage quantity buy_price trade_type
  let brokerage_sell := calculate_brokerage quantity sell_price trade_type
  let total_brokerage := brokerage_buy + brokerage_sell
  let stt := calculate_stt quantity buy_price sell_price trade_type
  let transaction_charges_buy := calculate_transaction_charges quantity buy_price exchange
  let transaction_charges_sell := calculate_transaction_charges quantity sell_price exchange
  let total_transaction_charges := transaction_charges_buy + transaction_charges_sell
  let sebi_charges_buy := calculate_sebi_charges quantity buy_price
  let sebi_charges_sell := calculate_sebi_charges quantity sell_price
  let total_sebi_charges := sebi_charges_buy + sebi_charges_sell
  let stamp_duty := calculate_stamp_duty quantity buy_price trade_type
  let gst := calculate_gst total_brokerage total_transaction_charges
  let dp_charges := if include_dp_charges then DP_CHARGES else 0
  let total_charges := total_brokerage + stt + total_transaction_charges
    + total_sebi_charges + stamp_duty + gst + dp_charges
  let gross_profit := (sell_price - buy_price) * quantity
  let net_profit := gross_profit - total_charges
  if (quantity : ℚ) * buy_price = 0 then none
  else some
    { breakdown :=
        { brokerage := pyRound total_brokerage 2
          stt := pyRound stt 2
          transaction_charges := pyRound total_transaction_charges 2
          sebi_charges := pyRound total_sebi_charges 2
          stamp_duty := pyRound stamp_duty 2
          gst := pyRound gst 2
          dp_charges := pyRound dp_charges 2 }
      totals :=
        { total_charges := pyRound total_charges 2
          gross_profit := pyRound gross_profit 2
          net_profit := pyRound net_profit 2
          net_profit_percent := pyRound (net_profit / ((quantity : ℚ) * buy_price) * 100) 3 } }

/-- `ZerodhaFeeCalculator.is_trade_profitable`:
`(is_profitable, net_profit, profit_percent)`. -/
def is_trade_profitable (quantity : ℕ) (buy_price sell_price min_profit_percent : ℚ)
    (trade_type : TradeType) (exchange : Exchange) : Option (Bool × ℚ × ℚ) :=
  (calculate_total_charges quantity buy_price sell_price trade_type exchange false).map
    fun charges =>
      (decide (min_profit_percent ≤ charges.totals.net_profit_percent),
        charges.totals.net_profit, charges.totals.net_profit_percent)

/-- The `for _ in range(100)` loop of
`ZerodhaFeeCalculator.get_minimum_profitable_price`, fuel = remaining
iterations.  Exhausted fuel returns the sell price the loop last held. -/
def minimumPriceLoop (quantity : ℕ) (buy_price min_profit_percent : ℚ)
    (trade_type : TradeType) (exchange : Exchange) :
    ℕ → ℚ → Option ℚ
  | 0, sell_price => some sell_price
  | fuel + 1, sell_price =>
      match is_trade_profitable quantity buy_price sell_price min_profit_percent
          trade_type exchange with
      | none => none
      | some (is_profitable, _, profit_percent) =>
          if is_profitable then
            if min_profit_percent + 1 / 100 < profit_percent then
              minimumPriceLoop quantity buy_price min_profit_percent trade_type exchange
                fuel (sell_price - 1 / 100)
            else some sell_price
          else
            minimumPriceLoop quantity buy_price min_profit_percent trade_type exchange
              fuel (sell_price + 1 / 100)

/-- `ZerodhaFeeCalculator.get_minimum_profitable_price`. -/
def get_minimum_profitable_price (quantity : ℕ) (buy_price min_profit_percent : ℚ)
    (trade_type : TradeType) (exchange : Exchange) : Option ℚ :=
  (minimumPriceLoop quantity buy_price min_profit_percent trade_type exchange
      100 (buy_price * (101 / 100))).map fun sell_price => pyRound sell_price 2

/-! ### Cointegration tester (src/src/stat_arb_engine.py, `test_cointegration`) -/

/-- A price series: (timestamp index, possibly-NaN price), as a pandas
`Series`.  `none` models a NaN entry. -/
abbrev Series : Type := List (ℤ × Option ℚ)

/-- Value of a series at a timestamp, `none` when absent or NaN. -/
def seriesAt (s : Series) (t : ℤ) : Option ℚ :=
  match List.find? (fun p => p.1 = t) s with
  | some p => p.2
  | none => none

/-- `pd.DataFrame({'stock1': s1, 'stock2': s2}).dropna()`: the union of the
two indexes, keeping the rows where both series have a non-NaN value. -/
def alignSeries (s1 s2 : Series) : List (ℚ × ℚ) :=
  ((s1.map Prod.fst ++ s2.map Prod.fst).dedup).filterMap fun t =>
    match seriesAt s1 t, seriesAt s2 t with
    | some a, some b => some (a, b)
    | _, _ => none

/-- What the external numeric libraries (`statsmodels.coint`,
`sklearn.LinearRegression`) produce on the aligned data.  These are
floating-point estimations with no closed form; the model abstracts them as
an oracle so that every theorem holds for every possible numeric outcome. -/
structure CointStats where
  p_value : ℚ
  critical_value : ℚ
  hedge_ratio : ℚ
  intercept : ℚ
  r_squared : ℚ

/-- The result dict of `test_cointegration`; `none` fields model keys absent
from the insufficient-data dict (`null` in the spec's record). -/
structure CointResult where
  cointegrated : Bool
  p_value : ℚ
  critical_value : Option ℚ
  hedge_ratio : Option ℚ
  intercept : Option ℚ
  r_squared : Option ℚ
  data_points : Option ℕ
  error : Option String
deriving DecidableEq

/-- `StatisticalArbitrageEngine.test_cointegration`.  `stats` is the oracle
for the external numerics run on the aligned data (only reached when at
least 30 aligned points remain). -/
def test_cointegration (stats : List (ℚ × ℚ) → CointStats) (s1 s2 : Series) :
    CointResult :=
  let aligned := alignSeries s1 s2
  if aligned.length < 30 then
    { cointegrated := false
      p_value := 1
      critical_value := none
      hedge_ratio := none
      intercept := none
      r_squared := none
      data_points := none
      error := some "Insufficient data" }
  else
    let st := stats aligned
    { cointegrated := decide (st.p_value < MAX_COINTEGRATION_PVALUE)
      p_value := st.p_value
      critical_value := some st.critical_value
      hedge_ratio := some st.hedge_ratio
      intercept := some st.intercept
      r_squared := some st.r_squared
      data_points := some aligned.length
      error := none }

/-! ### Signal state machine (`generate_trading_signals`) -/

/-- One row of the `signals` DataFrame (the `z_score`, `signal` and
`position` columns the state machine writes; `spread` is carried through
unchanged and the derived `entry`/`exit` flags are display-only). -/
structure SignalRow where
  z_score : Option ℚ
  signal : ℤ
  position : ℤ
deriving DecidableEq

/-- One iteration of the loop body of `generate_trading_signals`: from the
running `current_position` and the step's z-score, the written `signal` and
the new `current_position`.  A NaN z-score (`none`) writes signal 0 and
leaves the position unchanged (the `continue` branch). -/
def signalStep (current_position : ℤ) (z : Option ℚ) : ℤ × ℤ :=
  match z with
  | none => (0, current_position)
  | some z_current =>
      if current_position = 0 then
        if Z_SCORE_ENTRY < z_current then (-1, -1)
        else if z_current < -Z_SCORE_ENTRY then (1, 1)
        else (0, 0)
      else
        if |z_current| < Z_SCORE_EXIT then (-current_position, 0)
        else if STOP_LOSS_MULTIPLIER < |z_current| then (-current_position, 0)
        else (0, current_position)

/-- The rows the loop writes for indices `1 ..`, threading
`current_position`. -/
def signalRows (current_position : ℤ) : List (Option ℚ) → List SignalRow
  | [] => []
  | z :: rest =>
      let step := signalStep current_position z
      ⟨z, step.1, step.2⟩ :: signalRows step.2 rest

/-- `StatisticalArbitrageEngine.generate_trading_signals` restricted to the
columns the loop computes.  Row 0 keeps its initialised `signal = 0`,
`position = 0`: the loop runs over `range(1, len(signals))`. -/
def generate_trading_signals (z_scores : List (Option ℚ)) : List SignalRow :=
  match z_scores with
  | [] => []
  | z0 :: rest => ⟨z0, 0, 0⟩ :: signalRows 0 rest

/-! ### Current recommendation (`_get_current_signal`) -/

/-- The `'signal'` tags of `_get_current_signal` (Python string labels). -/
inductive SignalKind where
  | NO_DATA
  | SHORT_PAIR
  | LONG_PAIR
  | CLOSE_POSITION
  | HOLD
deriving DecidableEq

/-- The dict `_get_current_signal` returns, restricted to the `signal` tag
and the numeric `strength` (the `description`/`action` strings are formatted
display text). -/
structure CurrentSignal where
  signal : SignalKind
  strength : ℚ
deriving DecidableEq

/-- `StatisticalArbitrageEngine._get_current_signal`; the argument is the
latest z-score, `none` for NaN (`pd.isna`). -/
def get_current_signal (z_score : Option ℚ) : CurrentSignal :=
  match z_score with
  | none => ⟨.NO_DATA, 0⟩
  | some z =>
      if Z_SCORE_ENTRY < z then
        ⟨.SHORT_PAIR, min (|z| / Z_SCORE_ENTRY) 3⟩
      else if z < -Z_SCORE_ENTRY then
        ⟨.LONG_PAIR, min (|z| / Z_SCORE_ENTRY) 3⟩
      else if |z| < Z_SCORE_EXIT then
        ⟨.CLOSE_POSITION, 1⟩
      else
        ⟨.HOLD, 0⟩

/-! ### Pair screening (`screen_all_pairs`) -/

/-- What `screen_all_pairs` reads from one `analyze_pair` result dict:
`analysis.get('cointegrated', False)` and
`analysis.get('cointegration_details', {}).get('p_value', 1.0)` (the details
key is absent from error / not-cointegrated dicts). -/
structure PairAnalysis where
  cointegrated : Bool
  cointegration_details : Option CointResult
deriving DecidableEq

/-- The sort key `lambda x: x.get('cointegration_details', {}).get('p_value', 1.0)`. -/
def pValueKey (a : PairAnalysis) : ℚ :=
  match a.cointegration_details with
  | some d => d.p_value
  | none => 1

/-- Insert into a list sorted ascending by `pValueKey` (models the ascending
`list.sort(key=...)`). -/
def insertByP (a : PairAnalysis) : List PairAnalysis → List PairAnalysis
  | [] => [a]
  | b :: rest =>
      if pValueKey a < pValueKey b then a :: b :: rest
      else b :: insertByP a rest

/-- Stable insertion sort ascending by `pValueKey`. -/
def sortByP : List PairAnalysis → List PairAnalysis
  | [] => []
  | a :: rest => insertByP a (sortByP rest)

/-- `StatisticalArbitrageEngine.screen_all_pairs`, given the per-pair
analysis outcomes (each produced by `analyze_pair`, whose data fetching and
numerics are external): keep the analyses whose `cointegrated` flag is true,
then sort ascending by p-value. -/
def screen_all_pairs (analyses : List PairAnalysis) : List PairAnalysis :=
  sortByP (analyses.filter fun a => a.cointegrated)

/-! ### Theorems -/

/-- C1: for every pair of price series (and every outcome of the external
numerics), the result of the cointegration test has `cointegrated = true`
iff the test p-value is strictly below `MAX_COINTEGRATION_PVALUE` and at
least 30 aligned observations remain. -/
theorem cointegrated_iff (stats : List (ℚ × ℚ) → CointStats) (s1 s2 : Series) :
    (test_cointegration stats s1 s2).cointegrated = true ↔
      ((test_cointegration stats s1 s2).p_value < MAX_COINTEGRATION_PVALUE ∧
        30 ≤ (alignSeries s1 s2).length) := by
  unfold test_cointegration
  by_cases h : (alignSeries s1 s2).length < 30
  · simp only [h, if_true]
    constructor
    · intro hfalse; exact absurd hfalse (by simp)
    · rintro ⟨hp, hn⟩
      exact absurd hp (by norm_num [MAX_COINTEGRATION_PVALUE])
  · simp only [h, if_false]
    simp only [decide_eq_true_eq]
    exact ⟨fun hp => ⟨hp, by omega⟩, fun hp => hp.1⟩

/-- C6: whenever fewer than 30 aligned observations remain, the
cointegration test returns exactly the insufficient-data record
(`cointegrated = false`, `p_value = 1`, `error = "Insufficient data"`); the
function is total, so no exception escapes. -/
theorem test_cointegration_insufficient (stats : List (ℚ × ℚ) → CointStats)
    (s1 s2 : Series) (h : (alignSeries s1 s2).length < 30) :
    test_cointegration stats s1 s2 =
      { cointegrated := false
        p_value := 1
        critical_value := none
        hedge_ratio := none
        intercept := none
        r_squared := none
        data_points := none
        error := some "Insufficient data" } := by
  unfold test_cointegration
  simp [h]

/-- Witness for C6 at two one-point series (a single aligned observation). -/
theorem test_cointegration_insufficient_witness :
    test_cointegration (fun _ => ⟨1, 0, 0, 0, 0⟩) [(0, some 1)] [(0, some 2)] =
      { cointegrated := false
        p_value := 1
        critical_value := none
        hedge_ratio := none
        intercept := none
        r_squared := none
        data_points := none
        error := some "Insufficient data" } :=
  test_cointegration_insufficient (fun _ => ⟨1, 0, 0, 0, 0⟩) [(0, some 1)] [(0, some 2)]
    (by simp [alignSeries, seriesAt])

/-- C9: the first row of every nonempty signal trace has `signal = 0` and
`position = 0` (Flat), whatever the first z-score is: the loop starts at
index 1. -/
theorem first_signal_row_flat (z0 : Option ℚ) (rest : List (Option ℚ)) :
    (generate_trading_signals (z0 :: rest)).head? = some ⟨z0, 0, 0⟩ := rfl

/-- C2: at any step taken in an open position (`current_position ≠ 0`) whose
z-score exceeds `STOP_LOSS_MULTIPLIER` in magnitude, the machine emits the
closing signal `-current_position` and the position after the step is Flat —
irrespective of the sign of `z`, in particular also when `|z| ≥ Z_SCORE_ENTRY`
in the direction that would open the opposite position from Flat. -/
theorem stop_loss_closes (current_position : ℤ) (z : ℚ)
    (hpos : current_position ≠ 0) (hz : STOP_LOSS_MULTIPLIER < |z|) :
    signalStep current_position (some z) = (-current_position, 0) := by
  have hexit : ¬ |z| < Z_SCORE_EXIT := by
    unfold Z_SCORE_EXIT
    unfold STOP_LOSS_MULTIPLIER at hz
    linarith
  simp [signalStep, hpos, hexit, hz]

/-- Witness for C2: in a long position with z = 3 (beyond the 2.5 stop and
beyond the entry threshold 2 on the short side), the step closes to Flat. -/
theorem stop_loss_closes_witness : signalStep 1 (some 3) = (-1, 0) := by
  have habs : STOP_LOSS_MULTIPLIER < |(3 : ℚ)| := by
    rw [abs_of_pos (by norm_num : (0 : ℚ) < 3)]
    norm_num [STOP_LOSS_MULTIPLIER]
  exact stop_loss_closes 1 3 (by norm_num) habs

/-- The pair of consecutive positions a trace must never show: a direct flip
from LongPair (1) to ShortPair (-1) or conversely. -/
def noDirectFlip (a b : ℤ) : Prop := ¬(a = 1 ∧ b = -1) ∧ ¬(a = -1 ∧ b = 1)

/-- A step leaves the position at 0 or unchanged, unless it started Flat. -/
theorem signalStep_position_cases (current_position : ℤ) (z : Option ℚ) :
    (signalStep current_position z).2 = 0 ∨
      (signalStep current_position z).2 = current_position ∨
      current_position = 0 := by
  rcases z with _ | v
  · simp [signalStep]
  · by_cases h0 : current_position = 0
    · simp [h0]
    · simp only [signalStep, h0, if_false]
      split_ifs <;> simp

/-- The positions written after a run of the loop, prefixed with the position
the run starts from, never flip sides directly. -/
theorem chain_noDirectFlip (current_position : ℤ) (zs : List (Option ℚ)) :
    List.Chain' noDirectFlip
      (current_position :: (signalRows current_position zs).map fun r => r.position) := by
  induction zs generalizing current_position with
  | nil => simp [signalRows]
  | cons z rest ih =>
      simp only [signalRows, List.map_cons]
      rw [List.chain'_cons]
      refine ⟨?_, ih (signalStep current_position z).2⟩
      rcases signalStep_position_cases current_position z with h | h | h <;>
        · unfold noDirectFlip
          omega

/-- C3: on every z-score input sequence, the position trace produced by the
signal generator never moves directly between LongPair (1) and
ShortPair (-1); every change of side passes through Flat (0). -/
theorem positions_never_flip (z_scores : List (Option ℚ)) :
    List.Chain' noDirectFlip
      ((generate_trading_signals z_scores).map fun r => r.position) := by
  match z_scores with
  | [] => simp [generate_trading_signals]
  | z0 :: rest =>
      simp only [generate_trading_signals, List.map_cons]
      exact chain_noDirectFlip 0 rest

/-- C4 counterexample: at latest z-score 1.0 the code returns the HOLD
recommendation with strength 0, not `min(|z|/Z_SCORE_ENTRY, 3.0) = 0.5`, so
the claimed strength formula does not hold for every z. -/
theorem current_signal_strength_counterexample :
    get_current_signal (some 1) = ⟨.HOLD, 0⟩ ∧
      (get_current_signal (some 1)).strength ≠ min (|(1 : ℚ)| / Z_SCORE_ENTRY) 3 := by
  have hval : get_current_signal (some 1) = ⟨.HOLD, 0⟩ := by
    simp [get_current_signal, Z_SCORE_ENTRY, Z_SCORE_EXIT, abs_one]
    norm_num
  refine ⟨hval, ?_⟩
  rw [hval]
  rw [abs_one, Z_SCORE_ENTRY]
  rw [min_eq_left (by norm_num : (1 : ℚ) / 2 ≤ 3)]
  norm_num

/-- C4 amended: the recommendation is computed from the latest z-score alone
(`get_current_signal` takes only z); an undefined (NaN) latest z-score yields
`NO_DATA` with strength 0; and the strength is `min(|z|/Z_SCORE_ENTRY, 3.0)`
exactly for the entry recommendations `SHORT_PAIR` and `LONG_PAIR` (a
`CLOSE_POSITION` recommendation carries strength 1 and `HOLD` strength 0). -/
theorem current_signal_amended :
    get_current_signal none = ⟨.NO_DATA, 0⟩ ∧
      (∀ z : ℚ,
        (get_current_signal (some z)).signal = .SHORT_PAIR ∨
          (get_current_signal (some z)).signal = .LONG_PAIR →
        (get_current_signal (some z)).strength = min (|z| / Z_SCORE_ENTRY) 3) ∧
      (∀ z : ℚ, (get_current_signal (some z)).signal = .CLOSE_POSITION →
        (get_current_signal (some z)).strength = 1) ∧
      (∀ z : ℚ, (get_current_signal (some z)).signal = .HOLD →
        (get_current_signal (some z)).strength = 0) := by
  refine ⟨rfl, ?_, ?_, ?_⟩ <;>
    · intro z h
      simp only [get_current_signal] at h ⊢
      split_ifs at h ⊢ <;> simp_all

/-- With at least one share and a positive buy price, the denominator of
`net_profit_percent` is nonzero, so `calculate_total_charges` produces a
result (shared helper). -/
theorem calculate_total_charges_eq_some (quantity : ℕ) (buy_price sell_price : ℚ)
    (trade_type : TradeType) (exchange : Exchange) (include_dp_charges : Bool)
    (hq : 1 ≤ quantity) (hb : 0 < buy_price) :
    ∃ r, calculate_total_charges quantity buy_price sell_price trade_type exchange
      include_dp_charges = some r := by
  have hqpos : (0 : ℚ) < (quantity : ℚ) := by exact_mod_cast Nat.lt_of_lt_of_le Nat.zero_lt_one hq
  have hden : (quantity : ℚ) * buy_price ≠ 0 := ne_of_gt (mul_pos hqpos hb)
  unfold calculate_total_charges
  simp only [hden, if_false]
  exact ⟨_, rfl⟩

/-- C10: for every quantity ≥ 1 and buy price > 0 the fee computation is
total — the only fallible operation, the division by `quantity * buy_price`
in `net_profit_percent`, cannot divide by zero, and every other operation in
the breakdown is total. -/
theorem calculate_total_charges_total (quantity : ℕ) (buy_price sell_price : ℚ)
    (trade_type : TradeType) (exchange : Exchange) (include_dp_charges : Bool)
    (hq : 1 ≤ quantity) (hb : 0 < buy_price) :
    (calculate_total_charges quantity buy_price sell_price trade_type exchange
      include_dp_charges).isSome = true := by
  obtain ⟨r, hr⟩ := calculate_total_charges_eq_some quantity buy_price sell_price
    trade_type exchange include_dp_charges hq hb
  simp [hr]

/-- Witness for C10 at the round-trip example input. -/
theorem calculate_total_charges_total_witness :
    (calculate_total_charges 100 1500 1515 .intraday .NSE false).isSome = true :=
  calculate_total_charges_total 100 1500 1515 .intraday .NSE false
    (by norm_num) (by norm_num)

/-- C5 counterexample: on the round-trip example (100 shares, buy 1500,
sell 1515, intraday, NSE) the returned breakdown carries `stt = 37.88`
(Python's `round(37.875, 2)`), not 37.875 as the claim states, and
`total_charges = 100.44`, not ≈100.43. -/
theorem fee_example_counterexample :
    (calculate_total_charges 100 1500 1515 .intraday .NSE false).map
        (fun r => (r.breakdown.stt, r.totals.total_charges)) =
      some (947 / 25, 2511 / 25) ∧
      (947 / 25 : ℚ) ≠ 37875 / 1000 ∧ (2511 / 25 : ℚ) ≠ 10043 / 100 := by
  refine ⟨?_, by norm_num, by norm_num⟩
  norm_num [calculate_total_charges, calculate_brokerage, calculate_stt,
    calculate_transaction_charges, calculate_sebi_charges, calculate_stamp_duty,
    calculate_gst, pyRound, roundHalfEvenInt, INTRADAY_BROKERAGE_PERCENT,
    INTRADAY_BROKERAGE_MAX, STT_INTRADAY_SELL, NSE_TRANSACTION_CHARGES, SEBI_CHARGES,
    STAMP_DUTY_INTRADAY, GST_RATE, min_def]

/-- C5 amended: on quantity 100, buy 1500, sell 1515, intraday, NSE the fee
calculation returns brokerage 40.00, STT 37.88 (exact pre-rounding value
37.875), transaction charges 8.95, SEBI charges 0.30, stamp duty 4.50,
GST 8.81, total charges 100.44, gross profit 1500.00, net profit 1399.56 and
net profit percent 0.933. -/
theorem fee_example_amended :
    (calculate_total_charges 100 1500 1515 .intraday .NSE false).map
        (fun r =>
          (r.breakdown.brokerage, r.breakdown.stt, r.breakdown.transaction_charges,
            r.breakdown.sebi_charges, r.breakdown.stamp_duty, r.breakdown.gst,
            r.breakdown.dp_charges, r.totals.total_charges, r.totals.gross_profit,
            r.totals.net_profit, r.totals.net_profit_percent)) =
      some (40, 947 / 25, 179 / 20, 3 / 10, 9 / 2, 881 / 100, 0, 2511 / 25, 1500,
        34989 / 25, 933 / 1000) := by
  norm_num [calculate_total_charges, calculate_brokerage, calculate_stt,
    calculate_transaction_charges, calculate_sebi_charges, calculate_stamp_duty,
    calculate_gst, pyRound, roundHalfEvenInt, INTRADAY_BROKERAGE_PERCENT,
    INTRADAY_BROKERAGE_MAX, STT_INTRADAY_SELL, NSE_TRANSACTION_CHARGES, SEBI_CHARGES,
    STAMP_DUTY_INTRADAY, GST_RATE, min_def]

/-- Every run of the minimum-price loop with the given fuel lands on a value
reached from the start by at most `fuel` steps of ±0.01 (shared helper). -/
theorem minimumPriceLoop_reaches (quantity : ℕ) (buy_price min_profit_percent : ℚ)
    (trade_type : TradeType) (exchange : Exchange)
    (hq : 1 ≤ quantity) (hb : 0 < buy_price) :
    ∀ (fuel : ℕ) (sell_price : ℚ), ∃ k : ℤ, |k| ≤ (fuel : ℤ) ∧
      minimumPriceLoop quantity buy_price min_profit_percent trade_type exchange
        fuel sell_price = some (sell_price + (k : ℚ) / 100) := by
  intro fuel
  induction fuel with
  | zero =>
      intro s
      exact ⟨0, by simp, by simp [minimumPriceLoop]⟩
  | succ f ih =>
      intro s
      obtain ⟨r, hr⟩ := calculate_total_charges_eq_some quantity buy_price s
        trade_type exchange false hq hb
      have hit : is_trade_profitable quantity buy_price s min_profit_percent
          trade_type exchange =
          some (decide (min_profit_percent ≤ r.totals.net_profit_percent),
            r.totals.net_profit, r.totals.net_profit_percent) := by
        simp [is_trade_profitable, hr]
      rw [minimumPriceLoop]
      simp only [hit]
      by_cases hprof : min_profit_percent ≤ r.totals.net_profit_percent
      · rw [if_pos (decide_eq_true hprof)]
        by_cases hover : min_profit_percent + 1 / 100 < r.totals.net_profit_percent
        · obtain ⟨k, hk, hloop⟩ := ih (s - 1 / 100)
          refine ⟨k - 1, ?_, ?_⟩
          · obtain ⟨hk1, hk2⟩ := abs_le.mp hk
            refine abs_le.mpr ⟨?_, ?_⟩ <;> push_cast <;> omega
          · rw [if_pos hover, hloop]
            congr 1
            push_cast
            ring
        · refine ⟨0, ?_, ?_⟩
          · simp only [abs_zero]
            positivity
          · rw [if_neg hover]
            norm_num
      · obtain ⟨k, hk, hloop⟩ := ih (s + 1 / 100)
        refine ⟨k + 1, ?_, ?_⟩
        · obtain ⟨hk1, hk2⟩ := abs_le.mp hk
          refine abs_le.mpr ⟨?_, ?_⟩ <;> push_cast <;> omega
        · rw [if_neg (by simp [decide_eq_false hprof]), hloop]
          congr 1
          push_cast
          ring

/-- C7: for every quantity ≥ 1, buy price > 0, target margin, trade type and
exchange, the minimum-profitable-price search starts from
`buy_price * 1.01`, moves only in steps of ±0.01, runs at most 100
iterations (exhausted fuel returns the price the loop last held, first
conjunct), and the returned value is that last-held price rounded to two
decimals — a value `buy_price * 1.01 + k/100` with `|k| ≤ 100`. -/
theorem minimum_profitable_price_search (quantity : ℕ)
    (buy_price min_profit_percent : ℚ) (trade_type : TradeType) (exchange : Exchange)
    (hq : 1 ≤ quantity) (hb : 0 < buy_price) :
    (∀ sell_price : ℚ,
      minimumPriceLoop quantity buy_price min_profit_percent trade_type exchange
        0 sell_price = some sell_price) ∧
    ∃ k : ℤ, |k| ≤ 100 ∧
      get_minimum_profitable_price quantity buy_price min_profit_percent
        trade_type exchange =
        some (pyRound (buy_price * (101 / 100) + (k : ℚ) / 100) 2) := by
  refine ⟨fun s => by simp [minimumPriceLoop], ?_⟩
  obtain ⟨k, hk, hloop⟩ := minimumPriceLoop_reaches quantity buy_price
    min_profit_percent trade_type exchange hq hb 100 (buy_price * (101 / 100))
  refine ⟨k, by exact_mod_cast hk, ?_⟩
  simp [get_minimum_profitable_price, hloop]

/-- Witness for C7 at quantity 100, buy price 1500, margin 0.1%, intraday,
NSE. -/
theorem minimum_profitable_price_search_witness :
    (∀ sell_price : ℚ,
      minimumPriceLoop 100 1500 (1 / 10) .intraday .NSE 0 sell_price =
        some sell_price) ∧
    ∃ k : ℤ, |k| ≤ 100 ∧
      get_minimum_profitable_price 100 1500 (1 / 10) .intraday .NSE =
        some (pyRound (1500 * (101 / 100) + (k : ℚ) / 100) 2) :=
  minimum_profitable_price_search 100 1500 (1 / 10) .intraday .NSE
    (by norm_num) (by norm_num)

/-- The ascending-p-value order the screener sorts by. -/
def pOrder (a b : PairAnalysis) : Prop := pValueKey a ≤ pValueKey b

/-- Members of `insertByP a l` are `a` or members of `l`. -/
theorem mem_of_mem_insertByP (a x : PairAnalysis) :
    ∀ l : List PairAnalysis, x ∈ insertByP a l → x = a ∨ x ∈ l := by
  intro l
  induction l with
  | nil =>
      intro h
      rw [insertByP] at h
      exact Or.inl (List.mem_singleton.mp h)
  | cons b rest ih =>
      intro h
      rw [insertByP] at h
      by_cases hc : pValueKey a < pValueKey b
      · rw [if_pos hc] at h
        rcases List.mem_cons.mp h with h1 | h2
        · exact Or.inl h1
        · exact Or.inr h2
      · rw [if_neg hc] at h
        rcases List.mem_cons.mp h with h1 | h2
        · exact Or.inr (h1 ▸ List.mem_cons_self b rest)
        · rcases ih h2 with h3 | h4
          · exact Or.inl h3
          · exact Or.inr (List.mem_cons_of_mem b h4)

/-- Inserting into a list sorted by p-value keeps it sorted. -/
theorem sorted_insertByP (a : PairAnalysis) :
    ∀ l : List PairAnalysis, List.Sorted pOrder l →
      List.Sorted pOrder (insertByP a l) := by
  intro l
  induction l with
  | nil =>
      intro _
      rw [insertByP]
      exact List.sorted_singleton a
  | cons b rest ih =>
      intro hs
      obtain ⟨hb, hrest⟩ := List.sorted_cons.mp hs
      rw [insertByP]
      by_cases hc : pValueKey a < pValueKey b
      · rw [if_pos hc]
        refine List.sorted_cons.mpr ⟨?_, List.sorted_cons.mpr ⟨hb, hrest⟩⟩
        intro x hx
        rcases List.mem_cons.mp hx with h1 | h2
        · exact h1 ▸ le_of_lt hc
        · exact le_trans (le_of_lt hc) (hb x h2)
      · rw [if_neg hc]
        refine List.sorted_cons.mpr ⟨?_, ih hrest⟩
        intro x hx
        rcases mem_of_mem_insertByP a x rest hx with h1 | h2
        · exact h1 ▸ le_of_not_lt hc
        · exact hb x h2

/-- The insertion sort by p-value sorts. -/
theorem sorted_sortByP : ∀ l : List PairAnalysis, List.Sorted pOrder (sortByP l) := by
  intro l
  induction l with
  | nil =>
      rw [sortByP]
      exact List.sorted_nil
  | cons a rest ih => exact sorted_insertByP a (sortByP rest) ih

/-- The insertion sort permutes: each output member was an input member. -/
theorem mem_of_mem_sortByP (x : PairAnalysis) :
    ∀ l : List PairAnalysis, x ∈ sortByP l → x ∈ l := by
  intro l
  induction l with
  | nil =>
      intro h
      rw [sortByP] at h
      exact absurd h (List.not_mem_nil x)
  | cons a rest ih =>
      intro h
      rw [sortByP] at h
      rcases mem_of_mem_insertByP a x (sortByP rest) h with h1 | h2
      · exact h1 ▸ List.mem_cons_self a rest
      · exact List.mem_cons_of_mem a (ih h2)

/-- C8: every list the pair screener returns contains only analyses whose
`cointegrated` flag is true, and consecutive entries are in ascending
p-value order. -/
theorem screen_all_pairs_spec (analyses : List PairAnalysis) :
    (∀ a ∈ screen_all_pairs analyses, a.cointegrated = true) ∧
      List.Chain' pOrder (screen_all_pairs analyses) := by
  constructor
  · intro a ha
    have hmem : a ∈ analyses.filter (fun a => a.cointegrated) :=
      mem_of_mem_sortByP a _ ha
    exact (List.mem_filter.mp hmem).2
  · exact List.Pairwise.chain' (sorted_sortByP _)

end StatArb
